import Mathlib

/-!
Verification development for a two-handler serverless proxy:
* `netlify/functions/imf-api.js` — proxies the IMF datamapper API via `fetch`,
* a World Bank proxy handler (same repository) — proxies the World Bank API
  via `https.request` with a 30000 ms timeout and normalizes the payload.

The JavaScript is shallowly embedded: JSON/JS values become the inductive
`JVal`; each handler becomes a pure function from the inbound event and an
oracle describing the single upstream interaction's outcome to a view
containing the produced response envelope, the outbound request description
(if one was issued), and whether the in-flight request was destroyed.
-/

/-- A JavaScript value as it can appear on the handlers' data paths.
Numbers are modelled as decimal scaled integers `m × 10^(-e)` — faithful to
JSON numeric literals; neither handler performs arithmetic on payload
numbers, only pass-through and stringification. `undefined` models JS
`undefined` (absent property); `JSON.parse` output never contains it. -/
inductive JVal where
  | null : JVal
  | undefined : JVal
  | bool : Bool → JVal
  | num : Int → Nat → JVal
  | str : String → JVal
  | arr : List JVal → JVal
  | obj : List (String × JVal) → JVal

/-- Is this value JS `null`? -/
def JVal.isNull : JVal → Bool
  | .null => true
  | _ => false

/-- Is this value JS `undefined`? -/
def JVal.isUndefined : JVal → Bool
  | .undefined => true
  | _ => false

/-- The `Array.isArray` test. -/
def JVal.isArray : JVal → Bool
  | .arr _ => true
  | _ => false

/-- The element list of an array value (`[]` on non-arrays; only applied
to values already known to be arrays). -/
def JVal.items : JVal → List JVal
  | .arr xs => xs
  | _ => []

/-- JS truthiness (`if (x)`). The model's numbers have no NaN: JSON has no
NaN literal, and no arithmetic producing one occurs on these paths. -/
def JVal.truthy : JVal → Bool
  | .null => false
  | .undefined => false
  | .bool b => b
  | .num m _ => m ≠ 0
  | .str s => s ≠ ""
  | .arr _ => true
  | .obj _ => true

/-- Total property read `o[k]` for the keys these handlers read
(`"date"`, `"value"`): on objects, the first binding (keys produced by
`JSON.parse` are unique); on other non-nullish values, `undefined`
(primitives and arrays have no `date`/`value` own property). Reading a
property of `null`/`undefined` throws; `getProp` below captures that. -/
def JVal.propD : JVal → String → JVal
  | .obj kvs, k => ((kvs.lookup k).getD .undefined)
  | _, _ => .undefined

/-- Property read as it behaves inside the handler's `try` block: a
`TypeError` (modelled as `Except.error` with the message that lands in the
catch handler) when the receiver is `null` or `undefined`. -/
def getProp (o : JVal) (k : String) : Except String JVal :=
  match o with
  | .null => .error ("Cannot read properties of null (reading '" ++ k ++ "')")
  | .undefined => .error ("Cannot read properties of undefined (reading '" ++ k ++ "')")
  | o => .ok (o.propD k)

/-- Strip trailing decimal zeros from the scaled representation, so that
`num 30 1` (the literal `3.0`) prints as `"3"`, as JS prints the double 3. -/
def stripZeros : Int → Nat → Int × Nat
  | m, 0 => (m, 0)
  | m, e + 1 => if m % 10 = 0 then stripZeros (m / 10) e else (m, e + 1)

/-- JS number-to-string for the decimal scaled representation: integer part,
then a `.` and an `e`-digit zero-padded fraction when a fraction remains.
(JS switches to exponent notation for very large or small magnitudes; no
such number appears on these data paths.) -/
def jsNumToString (m : Int) (e : Nat) : String :=
  let p := stripZeros m e
  if p.2 = 0 then toString p.1
  else
    let a := p.1.natAbs
    let ip := a / 10 ^ p.2
    let fr := a % 10 ^ p.2
    let fs := toString fr
    let pad := String.mk (List.replicate (p.2 - fs.length) '0')
    (if p.1 < 0 then "-" else "") ++ toString ip ++ "." ++ pad ++ fs

mutual

/-- JS `String(x)` coercion as `parseInt` applies it to its argument. -/
def jsToString : JVal → String
  | .null => "null"
  | .undefined => "undefined"
  | .bool b => if b then "true" else "false"
  | .num m e => jsNumToString m e
  | .str s => s
  | .arr xs => String.intercalate "," (jsToStringElems xs)
  | .obj _ => "[object Object]"

/-- Elements of `Array.prototype.toString` (a `join(",")`): `null` and
`undefined` elements contribute the empty string. -/
def jsToStringElems : List JVal → List String
  | [] => []
  | .null :: rest => "" :: jsToStringElems rest
  | .undefined :: rest => "" :: jsToStringElems rest
  | x :: rest => jsToString x :: jsToStringElems rest

end

/-- Hex digit value for `parseInt`'s implicit base-16 mode. -/
def hexDigitVal (c : Char) : Option Nat :=
  if c.isDigit then some (c.toNat - '0'.toNat)
  else if 'a' ≤ c ∧ c ≤ 'f' then some (c.toNat - 'a'.toNat + 10)
  else if 'A' ≤ c ∧ c ≤ 'F' then some (c.toNat - 'A'.toNat + 10)
  else none

/-- Longest prefix of digits in the given base, accumulated left to right;
`none` when there is no leading digit. -/
def takeDigits (base : Nat) (dig : Char → Option Nat) : List Char → Option Nat → Option Nat
  | [], acc => acc
  | c :: rest, acc =>
    match dig c with
    | some d => takeDigits base dig rest (some ((acc.getD 0) * base + d))
    | none => acc

/-- JS `parseInt(s)` with radix undefined: skip leading whitespace, optional
sign, then the longest run of hexadecimal digits after a `0x`/`0X` prefix or
of decimal digits otherwise; `none` models NaN. (JS returns a double, so
astronomically long digit runs lose precision there; the year strings on
this data path are far below that bound.) -/
def parseIntJS (s : String) : Option Int :=
  let cs := s.toList.dropWhile fun c => c = ' ' ∨ c = '\t' ∨ c = '\n' ∨ c = '\r'
  let signAndRest : Int × List Char :=
    match cs with
    | '-' :: rest => (-1, rest)
    | '+' :: rest => (1, rest)
    | _ => (1, cs)
  let body := signAndRest.2
  let mag : Option Nat :=
    match body with
    | '0' :: 'x' :: rest => takeDigits 16 hexDigitVal rest none
    | '0' :: 'X' :: rest => takeDigits 16 hexDigitVal rest none
    | _ => takeDigits 10 (fun c => if c.isDigit then some (c.toNat - '0'.toNat) else none) body none
  mag.map fun n => signAndRest.1 * (n : Int)

/-- JSON string escaping: the characters `JSON.stringify` escapes that can
occur on these data paths (quote, backslash, ASCII control characters). -/
def escapeJsonChar (c : Char) : String :=
  if c = '"' then "\\\""
  else if c = '\\' then "\\\\"
  else if c = '\n' then "\\n"
  else if c = '\r' then "\\r"
  else if c = '\t' then "\\t"
  else if c.toNat < 32 then
    let n := c.toNat
    let hx := fun (d : Nat) => (Nat.digitChar d)
    "\\u00" ++ String.mk [hx (n / 16), hx (n % 16)]
  else String.mk [c]

/-- Serialization of a string by `JSON.stringify`. -/
def jsonQuote (s : String) : String :=
  "\"" ++ String.join (s.toList.map escapeJsonChar) ++ "\""

mutual

/-- The `JSON.stringify` serialization. Properties with `undefined` values are dropped;
`undefined` array elements serialize as `null`. Object properties are
emitted in insertion order; JS additionally enumerates integer-like keys in
ascending numeric order, a difference observable only for the `values` map,
whose serialization order no property below depends on. Top-level
`undefined` is unreachable at every call site (all stringify an object). -/
def jsonStringify : JVal → String
  | .null => "null"
  | .undefined => "undefined"
  | .bool b => if b then "true" else "false"
  | .num m e => jsNumToString m e
  | .str s => jsonQuote s
  | .arr xs => "[" ++ String.intercalate "," (jsonStringifyElems xs) ++ "]"
  | .obj kvs => "\x7b" ++ String.intercalate "," (jsonStringifyProps kvs) ++ "\x7d"

/-- Array elements: `undefined` (and unserializable values, none here)
become `null`. -/
def jsonStringifyElems : List JVal → List String
  | [] => []
  | .undefined :: rest => "null" :: jsonStringifyElems rest
  | x :: rest => jsonStringify x :: jsonStringifyElems rest

/-- Object properties: `undefined`-valued properties are skipped. -/
def jsonStringifyProps : List (String × JVal) → List String
  | [] => []
  | (_, .undefined) :: rest => jsonStringifyProps rest
  | (k, v) :: rest => (jsonQuote k ++ ":" ++ jsonStringify v) :: jsonStringifyProps rest

end

/-! ## World Bank payload normalization (lines 124–144 of the World Bank
handler's `try` block) -/

/-- JS object property write `m[k] = v`: overwrite in place when the key
exists (the key keeps its original position), append otherwise. -/
def setProp : List (String × JVal) → String → JVal → List (String × JVal)
  | [], k, v => [(k, v)]
  | (k', v') :: rest, k, v =>
    if k' = k then (k, v) :: rest else (k', v') :: setProp rest k v

/-- Property lookup in the built `values` object (first binding; `setProp`
keeps keys unique). -/
def lookupKV : List (String × JVal) → String → Option JVal
  | [], _ => none
  | (k', v) :: rest, k => if k' = k then some v else lookupKV rest k

/-- The string key under which `transformedData.values[year] = item.value`
stores an observation: JS coerces the number `year = parseInt(item.date)`
to a property key, `"NaN"` when the parse failed. -/
def yearKey (d : JVal) : String :=
  match parseIntJS (jsToString d) with
  | some n => toString n
  | none => "NaN"

/-- One iteration of `dataArray.forEach on (line 139): record
`values[parseInt(item.date)] = item.value` when `item.date` is truthy and
`item.value !== null`, else skip. Property reads throw (propagate an error
to the surrounding catch) on `null`/`undefined` items. -/
def obsStepE (m : List (String × JVal)) (item : JVal) :
    Except String (List (String × JVal)) :=
  match getProp item "date" with
  | .error e => .error e
  | .ok d =>
    if d.truthy then
      match getProp item "value" with
      | .error e => .error e
      | .ok v => if v.isNull then .ok m else .ok (setProp m (yearKey d) v)
    else .ok m

/-- The `forEach` loop over the observation list. -/
def wbForEach (items : List JVal) : Except String (List (String × JVal)) :=
  items.foldlM obsStepE []

/-- The entry an observation contributes to `values` (total form, defined
for non-nullish items): `none` when it is skipped (falsy `date` or `null`
`value`), otherwise the written key/value pair. -/
def obsEntry (item : JVal) : Option (String × JVal) :=
  let d := item.propD "date"
  if d.truthy then
    let v := item.propD "value"
    if v.isNull then none else some (yearKey d, v)
  else none

/-- One `forEach` iteration in total form (defined for non-nullish items):
apply the contributed entry as an overwriting write, or keep `values`
unchanged. -/
def pureStep (m : List (String × JVal)) (item : JVal) : List (String × JVal) :=
  match obsEntry item with
  | some p => setProp m p.1 p.2
  | none => m

/-- The `values` object built from an observation list of non-nullish
items: fold the contributed entries with overwriting writes. -/
def wbTransform (items : List JVal) : List (String × JVal) :=
  items.foldl pureStep []

/-- Parse/normalization step of the World Bank handler applied to the
decoded payload (`JSON.parse` succeeded): throw
`'Invalid World Bank API response format'` unless the payload is an array
of length ≥ 2; take `dataArray = jsonData[1] || []`; `forEach` over it
(a truthy non-array `jsonData[1]` has no `forEach` and throws a
`TypeError`). Errors land in the handler's `catch (parseError)` branch. -/
def wbNormalize (j : JVal) : Except String (List (String × JVal)) :=
  if j.isArray = false ∨ j.items.length < 2 then
    .error "Invalid World Bank API response format"
  else
    let one := j.items.getD 1 .null
    let dataArray := if one.truthy then one else .arr []
    match dataArray with
    | .arr items => wbForEach items
    | _ => .error "dataArray.forEach is not a function"

/-! ## Request/response envelopes and the two handlers -/

/-- The inbound serverless event: HTTP method and query string parameters
(`none` models an absent/null `queryStringParameters` object). -/
structure Event where
  httpMethod : String
  queryStringParameters : Option (List (String × String))

/-- The response envelope a handler resolves. -/
structure Response where
  statusCode : Nat
  headers : List (String × String)
  body : String

/-- The CORS/content-type header object both handlers attach to every
response. -/
def corsHeaders : List (String × String) :=
  [("Access-Control-Allow-Origin", "*"),
   ("Access-Control-Allow-Headers", "Content-Type"),
   ("Access-Control-Allow-Methods", "GET, OPTIONS"),
   ("Content-Type", "application/json")]

/-- Shared parameter extraction of both handlers:
`const { indicator, country, startYear, endYear } = event.queryStringParameters || {};`
followed by `if (!indicator || !country || !startYear || !endYear)`.
Returns the four parameters when the validation passes, `none` when any is
absent or empty (the only falsy strings here; a missing key destructures to
`undefined`). -/
def requiredParams (event : Event) : Option (String × String × String × String) :=
  let qsp := event.queryStringParameters.getD []
  match qsp.lookup "indicator", qsp.lookup "country",
      qsp.lookup "startYear", qsp.lookup "endYear" with
  | some i, some c, some s, some e =>
    if i = "" ∨ c = "" ∨ s = "" ∨ e = "" then none else some (i, c, s, e)
  | _, _, _, _ => none

/-- Body of the 400 response both handlers produce. -/
def missingParamsBody : String :=
  jsonStringify (.obj [("error",
    .str "Missing required parameters: indicator, country, startYear, endYear")])

/-- Body of the 405 response both handlers produce. -/
def methodNotAllowedBody : String :=
  jsonStringify (.obj [("error", .str "Method not allowed")])

/-- JS `x || y` where `x` is the result of a map lookup (a string or
`undefined`): the looked-up value unless it is absent or falsy. -/
def jsOr (x : Option String) (y : String) : String :=
  match x with
  | some v => if v = "" then y else v
  | none => y

/-! ### The IMF handler (`netlify/functions/imf-api.js`) -/

/-- Outcome of the single `fetch` the IMF handler performs: either a
response — status, status text, `text()` body, and the result of
`response.json()` (`Except.error` models a rejected JSON decode) — or a
network-level rejection of the fetch itself. -/
inductive FetchOutcome where
  | response : Nat → String → String → Except String JVal → FetchOutcome
  | networkError : String → FetchOutcome

/-- Fetch's `response.ok`: status in the inclusive range 200–299. -/
def respOk (status : Nat) : Bool := 200 ≤ status && status ≤ 299

/-- The IMF request URL (line 47). -/
def imfApiUrl (indicator country startYear endYear : String) : String :=
  "https://www.imf.org/external/datamapper/api/v1/" ++ indicator ++ "/" ++
    country ++ "?periods=" ++ startYear ++ "-" ++ endYear

/-- What the IMF handler did: the resolved response envelope and the URL it
fetched, if it made the outbound call at all. -/
structure IMFView where
  response : Response
  request : Option String

/-- 500 envelope of the IMF handler's `catch` block. -/
def imfCatch (message : String) : Response :=
  ⟨500, corsHeaders,
    jsonStringify (.obj [("error", .str "Failed to fetch data from IMF API"),
      ("message", .str message)])⟩

/-- Post-validation body of the IMF handler (lines 46–88): build the URL,
fetch; a non-OK status throws a message embedding the status, status text
and the first 200 characters of the body; the catch block converts any
throw (including a rejected `response.json()` or network failure) into the
500 envelope. -/
def imfRespond (indicator country startYear endYear : String)
    (net : FetchOutcome) : IMFView :=
  let url := imfApiUrl indicator country startYear endYear
  match net with
  | .networkError message => ⟨imfCatch message, some url⟩
  | .response status statusText bodyText json =>
    if respOk status = false then
      ⟨imfCatch ("IMF API error: " ++ toString status ++ " " ++ statusText ++
        ". " ++ bodyText.take 200), some url⟩
    else
      match json with
      | .error message => ⟨imfCatch message, some url⟩
      | .ok data => ⟨⟨200, corsHeaders, jsonStringify data⟩, some url⟩

/-- The IMF handler: CORS preflight, method check, parameter validation,
then the fetch/response body. -/
def imfHandler (event : Event) (net : FetchOutcome) : IMFView :=
  if event.httpMethod = "OPTIONS" then ⟨⟨200, corsHeaders, ""⟩, none⟩
  else if event.httpMethod ≠ "GET" then ⟨⟨405, corsHeaders, methodNotAllowedBody⟩, none⟩
  else
    match requiredParams event with
    | none => ⟨⟨400, corsHeaders, missingParamsBody⟩, none⟩
    | some (indicator, country, startYear, endYear) =>
      imfRespond indicator country startYear endYear net

/-! ### The World Bank handler -/

/-- The World Bank indicator code translation table (lines 51–58). -/
def indicatorMap : List (String × String) :=
  [("NGDP_RPCH", "NY.GDP.MKTP.KD.ZG"),
   ("PCPIPCH", "FP.CPI.TOTL.ZG"),
   ("LUR", "SL.UEM.TOTL.ZS"),
   ("NGDPD", "NY.GDP.MKTP.CD"),
   ("GDP_PCAP", "NY.GDP.PCAP.CD"),
   ("BCA", "BN.CAB.XOKA.GD.ZS")]

/-- The country code translation table (lines 61–74). -/
def countryMap : List (String × String) :=
  [("US", "USA"), ("CN", "CHN"), ("JP", "JPN"), ("DE", "DEU"),
   ("GB", "GBR"), ("FR", "FRA"), ("KR", "KOR"), ("IN", "IND"),
   ("BR", "BRA"), ("RU", "RUS"), ("CZ", "CZE"), ("SK", "SVK")]

/-- The World Bank request URL (line 81), built from the translated codes
`indicatorMap[indicator] || indicator` and `countryMap[country] || country`. -/
def wbApiUrl (indicator country startYear endYear : String) : String :=
  "https://api.worldbank.org/v2/country/" ++ jsOr (countryMap.lookup country) country ++
    "/indicator/" ++ jsOr (indicatorMap.lookup indicator) indicator ++
    "?format=json&date=" ++ startYear ++ ":" ++ endYear

/-- The `options` object passed to `https.request` (lines 87–96). -/
structure WBOptions where
  hostname : String
  path : String
  method : String
  headers : List (String × String)
  timeout : Nat

/-- Options for the built URL. `new URL` is specialized to this fixed
scheme and host: for the URLs built here (no fragment, fixed 25-character
prefix `https://api.worldbank.org`), `pathname + search` is the URL with
that prefix removed. -/
def wbOptions (url : String) : WBOptions :=
  { hostname := "api.worldbank.org"
    path := url.drop 25
    method := "GET"
    headers := [("Accept", "application/json"),
      ("User-Agent", "World-Bank-Economic-Dashboard/1.0")]
    timeout := 30000 }

/-- Outcome of the single `https.request`: a complete response (status,
status message, accumulated body text, and the `JSON.parse` outcome on that
text), an `error` event (message and optional `error.code`), or a
`timeout` event. -/
inductive WBOutcome where
  | got : Nat → String → String → Except String JVal → WBOutcome
  | reqError : String → Option String → WBOutcome
  | timeout : WBOutcome

/-- What the World Bank handler did: the resolved response, the outbound
request options if the request was issued, and whether `req.destroy()` was
called. -/
structure WBView where
  response : Response
  request : Option WBOptions
  destroyed : Bool

/-- 500 envelope of the `catch (parseError)` branch (lines 153–164):
`rawData` carries the first 500 characters of the raw body. -/
def wbParse500 (message data : String) : Response :=
  ⟨500, corsHeaders,
    jsonStringify (.obj [("error", .str "Failed to parse World Bank API response"),
      ("message", .str message),
      ("rawData", .str (data.take 500))])⟩

/-- Post-validation body of the World Bank handler (lines 50–194): code
translation, one `https.request` with a 30000 ms timeout; non-200 status
yields a structured 500 with the first 200 characters of the body as
`details`; parse/shape failures yield the `parseError` 500; an `error`
event yields a transport 500 (an absent `error.code` serializes to a
dropped property); a `timeout` event destroys the request and yields the
timeout 500. -/
def wbRespond (indicator country startYear endYear : String)
    (net : WBOutcome) : WBView :=
  let url := wbApiUrl indicator country startYear endYear
  let options := wbOptions url
  match net with
      | .timeout =>
        ⟨⟨500, corsHeaders,
          jsonStringify (.obj [("error", .str "World Bank API request timeout"),
            ("message", .str "Request took longer than 30 seconds")])⟩,
          some options, true⟩
      | .reqError message code =>
        ⟨⟨500, corsHeaders,
          jsonStringify (.obj [("error", .str "Failed to fetch data from World Bank API"),
            ("message", .str message),
            ("code", match code with | some s => .str s | none => .undefined)])⟩,
          some options, false⟩
      | .got status statusMessage data decoded =>
        if status ≠ 200 then
          ⟨⟨500, corsHeaders,
            jsonStringify (.obj [("error", .str "World Bank API error"),
              ("message", .str ("HTTP " ++ toString status ++ ": " ++ statusMessage)),
              ("details", .str (data.take 200))])⟩,
            some options, false⟩
        else
          match decoded with
          | .error message => ⟨wbParse500 message data, some options, false⟩
          | .ok jsonData =>
            match wbNormalize jsonData with
            | .error message => ⟨wbParse500 message data, some options, false⟩
            | .ok values =>
              ⟨⟨200, corsHeaders, jsonStringify (.obj [("values", .obj values)])⟩,
                some options, false⟩

/-- The World Bank handler: CORS preflight, method check, parameter
validation, then the request/response body. -/
def wbHandler (event : Event) (net : WBOutcome) : WBView :=
  if event.httpMethod = "OPTIONS" then ⟨⟨200, corsHeaders, ""⟩, none, false⟩
  else if event.httpMethod ≠ "GET" then
    ⟨⟨405, corsHeaders, methodNotAllowedBody⟩, none, false⟩
  else
    match requiredParams event with
    | none => ⟨⟨400, corsHeaders, missingParamsBody⟩, none, false⟩
    | some (indicator, country, startYear, endYear) =>
      wbRespond indicator country startYear endYear net

/-! ## Concrete example data -/

/-- The observation list of the spec's Development Bank example payload:
`[{date:"2020", value:5.1}, {date:"2021", value:null}, {date:"2022", value:3.0}]`. -/
def c1Obs : List JVal :=
  [.obj [("date", .str "2020"), ("value", .num 51 1)],
   .obj [("date", .str "2021"), ("value", .null)],
   .obj [("date", .str "2022"), ("value", .num 30 1)]]

/-- The spec's Development Bank example payload
`[{page:1}, [...observations...]]`. -/
def c1Payload : JVal := .arr [.obj [("page", .num 1 0)], .arr c1Obs]

/-- A GET event with all four query parameters present. -/
def evValid : Event :=
  ⟨"GET", some [("indicator", "NGDP_RPCH"), ("country", "KR"),
    ("startYear", "2000"), ("endYear", "2020")]⟩

/-- A GET event missing three of the four required parameters. -/
def evMissing : Event := ⟨"GET", some [("indicator", "NGDP_RPCH")]⟩

/-- A CORS preflight event. -/
def evOptions : Event := ⟨"OPTIONS", none⟩

/-- A POST event (method neither GET nor OPTIONS). -/
def evPost : Event := ⟨"POST", none⟩

/-- A GET event with no `queryStringParameters` object at all. -/
def evNoQsp : Event := ⟨"GET", none⟩

/-! ## Helper lemmas -/

theorem getProp_eq_propD (o : JVal) (k : String) (h1 : o.isNull = false)
    (h2 : o.isUndefined = false) : getProp o k = .ok (o.propD k) := by
  cases o <;> first
    | rfl
    | simp [JVal.isNull, JVal.isUndefined] at h1 h2

theorem obsStepE_eq (m : List (String × JVal)) (item : JVal)
    (h1 : item.isNull = false) (h2 : item.isUndefined = false) :
    obsStepE m item = .ok (pureStep m item) := by
  unfold obsStepE pureStep obsEntry
  rw [getProp_eq_propD item "date" h1 h2, getProp_eq_propD item "value" h1 h2]
  by_cases hd : (item.propD "date").truthy
  · by_cases hv : (item.propD "value").isNull <;> simp [hd, hv]
  · simp [hd]

theorem foldlM_obsStepE_eq (items : List JVal)
    (h : ∀ item ∈ items, item.isNull = false ∧ item.isUndefined = false) :
    ∀ m, List.foldlM obsStepE m items = .ok (items.foldl pureStep m) := by
  induction items with
  | nil => intro m; rfl
  | cons item rest ih =>
    intro m
    have h1 := (h item (List.mem_cons_self item rest)).1
    have h2 := (h item (List.mem_cons_self item rest)).2
    rw [List.foldlM_cons, obsStepE_eq m item h1 h2]
    have hr : ∀ i ∈ rest, i.isNull = false ∧ i.isUndefined = false :=
      fun i hi => h i (List.mem_cons_of_mem item hi)
    simp only [List.foldl_cons]
    rw [← ih hr (pureStep m item)]
    rfl

theorem lookupKV_setProp (m : List (String × JVal)) (k : String) (v : JVal)
    (q : String) : lookupKV (setProp m k v) q = if k = q then some v else lookupKV m q := by
  induction m with
  | nil => simp [setProp, lookupKV]
  | cons p rest ih =>
    obtain ⟨k0, v0⟩ := p
    by_cases h : k0 = k
    · subst h
      by_cases h2 : k0 = q <;> simp [setProp, lookupKV, h2]
    · by_cases h2 : k0 = q
      · subst h2
        simp [setProp, h, lookupKV]
        rw [if_neg (fun hkq => h hkq.symm)]
      · simp [setProp, h, lookupKV, h2, ih]

theorem lookupKV_foldl (items : List JVal) : ∀ (m : List (String × JVal)) (q : String),
    lookupKV (items.foldl pureStep m) q =
      match (items.filterMap obsEntry).reverse.find? (fun p => p.1 == q) with
      | some p => some p.2
      | none => lookupKV m q := by
  induction items with
  | nil => intro m q; rfl
  | cons item rest ih =>
    intro m q
    rw [List.foldl_cons, ih (pureStep m item) q]
    cases he : obsEntry item with
    | none => simp [List.filterMap_cons, he, pureStep]
    | some p =>
      obtain ⟨k0, v0⟩ := p
      simp only [List.filterMap_cons, he, List.reverse_cons, List.find?_append]
      cases hf : (rest.filterMap obsEntry).reverse.find? (fun p => p.1 == q) with
      | some r => simp [Option.or]
      | none =>
        simp only [Option.or, pureStep, he, lookupKV_setProp]
        by_cases hk : k0 = q
        · subst hk; simp [List.find?]
        · have hb : (k0 == q) = false := beq_eq_false_iff_ne.mpr hk
          simp [List.find?, hb, lookupKV]
          exact fun hkq => absurd hkq hk

theorem wbTransform_lookup (items : List JVal) (q : String) :
    lookupKV (wbTransform items) q =
      ((items.filterMap obsEntry).reverse.find? (fun p => p.1 == q)).map Prod.snd := by
  unfold wbTransform
  rw [lookupKV_foldl items [] q]
  cases hf : (items.filterMap obsEntry).reverse.find? (fun p => p.1 == q) <;> simp [lookupKV]

theorem wbNormalize_cons (meta : JVal) (obs rest : List JVal) :
    wbNormalize (.arr (meta :: .arr obs :: rest)) = wbForEach obs := by
  have hcond : ¬ ((JVal.arr (meta :: .arr obs :: rest)).isArray = false ∨
      (JVal.arr (meta :: .arr obs :: rest)).items.length < 2) := by
    simp [JVal.isArray, JVal.items]
  unfold wbNormalize
  rw [if_neg hcond]
  simp [JVal.items, JVal.truthy, List.getD]

theorem imfHandler_valid (ev : Event) (i c s e : String) (net : FetchOutcome)
    (hm : ev.httpMethod = "GET") (hp : requiredParams ev = some (i, c, s, e)) :
    imfHandler ev net = imfRespond i c s e net := by
  unfold imfHandler
  rw [hm, hp]
  rfl

theorem wbHandler_valid (ev : Event) (i c s e : String) (net : WBOutcome)
    (hm : ev.httpMethod = "GET") (hp : requiredParams ev = some (i, c, s, e)) :
    wbHandler ev net = wbRespond i c s e net := by
  unfold wbHandler
  rw [hm, hp]
  rfl

theorem imfHandler_400 (ev : Event) (net : FetchOutcome)
    (hm : ev.httpMethod = "GET") (hp : requiredParams ev = none) :
    imfHandler ev net = ⟨⟨400, corsHeaders, missingParamsBody⟩, none⟩ := by
  unfold imfHandler
  rw [hm, hp]
  rfl

theorem wbHandler_400 (ev : Event) (net : WBOutcome)
    (hm : ev.httpMethod = "GET") (hp : requiredParams ev = none) :
    wbHandler ev net = ⟨⟨400, corsHeaders, missingParamsBody⟩, none, false⟩ := by
  unfold wbHandler
  rw [hm, hp]
  rfl

theorem requiredParams_noQsp (ev : Event) (hq : ev.queryStringParameters = none) :
    requiredParams ev = none := by
  unfold requiredParams
  rw [hq]
  rfl

theorem wbHandler_headers_aux (ev : Event) (net : WBOutcome) :
    (wbHandler ev net).response.headers = corsHeaders := by
  unfold wbHandler wbRespond
  repeat' first
    | rfl
    | split

theorem imfHandler_headers_aux (ev : Event) (net : FetchOutcome) :
    (imfHandler ev net).response.headers = corsHeaders := by
  unfold imfHandler imfRespond
  repeat' first
    | rfl
    | split

theorem wbHandler_options_aux (ev : Event) (net : WBOutcome)
    (hm : ev.httpMethod = "OPTIONS") :
    wbHandler ev net = ⟨⟨200, corsHeaders, ""⟩, none, false⟩ := by
  unfold wbHandler
  rw [hm]
  rfl

theorem imfHandler_options_aux (ev : Event) (net : FetchOutcome)
    (hm : ev.httpMethod = "OPTIONS") :
    imfHandler ev net = ⟨⟨200, corsHeaders, ""⟩, none⟩ := by
  unfold imfHandler
  rw [hm]
  rfl

theorem wbHandler_405_aux (ev : Event) (net : WBOutcome)
    (ho : ev.httpMethod ≠ "OPTIONS") (hg : ev.httpMethod ≠ "GET") :
    wbHandler ev net = ⟨⟨405, corsHeaders, methodNotAllowedBody⟩, none, false⟩ := by
  unfold wbHandler
  rw [if_neg ho, if_pos hg]

theorem imfHandler_405_aux (ev : Event) (net : FetchOutcome)
    (ho : ev.httpMethod ≠ "OPTIONS") (hg : ev.httpMethod ≠ "GET") :
    imfHandler ev net = ⟨⟨405, corsHeaders, methodNotAllowedBody⟩, none⟩ := by
  unfold imfHandler
  rw [if_neg ho, if_pos hg]

theorem wbRespond_request (i c s e : String) (net : WBOutcome) :
    (wbRespond i c s e net).request = some (wbOptions (wbApiUrl i c s e)) := by
  unfold wbRespond
  repeat' first
    | rfl
    | split

theorem string_take_length_le (s : String) (n : Nat) : (s.take n).length ≤ n := by
  have h := String.data_take s n
  have h2 : (s.take n).length = (s.take n).1.length := rfl
  rw [h2, h, List.length_take]
  omega

theorem wbRespond_got_ok (i c s e sm data : String) (j : JVal) :
    wbRespond i c s e (.got 200 sm data (.ok j)) =
      match wbNormalize j with
      | .error msg => ⟨wbParse500 msg data, some (wbOptions (wbApiUrl i c s e)), false⟩
      | .ok values =>
        ⟨⟨200, corsHeaders, jsonStringify (.obj [("values", .obj values)])⟩,
          some (wbOptions (wbApiUrl i c s e)), false⟩ := rfl

theorem imfRespond_response (i c s e : String) (status : Nat) (st bt : String)
    (json : Except String JVal) :
    imfRespond i c s e (.response status st bt json) =
      if respOk status = false then
        ⟨imfCatch ("IMF API error: " ++ toString status ++ " " ++ st ++ ". " ++
          bt.take 200), some (imfApiUrl i c s e)⟩
      else
        match json with
        | .error message => ⟨imfCatch message, some (imfApiUrl i c s e)⟩
        | .ok data => ⟨⟨200, corsHeaders, jsonStringify data⟩, some (imfApiUrl i c s e)⟩ := rfl

/-! ## Claims -/

/-- C1: For every decoded World Bank payload that is an array of length ≥ 2
whose second element is the observation list, normalization succeeds and
returns the `values` object built by iterating the observations: a lookup
in the result is the value of the last qualifying observation for that
year key (so duplicates overwrite, last write wins, without crashing);
observations with a falsy/missing date or a `null` value contribute no
entry (skipped, not recorded as zero or null); and the spec's example
payload normalizes to `values = {2020: 5.1, 2022: 3.0}`. -/
theorem c1_wb_normalization (meta : JVal) (obs rest : List JVal)
    (h : (obs.all fun o => !o.isNull && !o.isUndefined) = true) :
    wbNormalize (.arr (meta :: .arr obs :: rest)) = .ok (wbTransform obs)
    ∧ (∀ q, lookupKV (wbTransform obs) q =
        ((obs.filterMap obsEntry).reverse.find? (fun p => p.1 == q)).map Prod.snd)
    ∧ (∀ o : JVal, (o.propD "date").truthy = false ∨ (o.propD "value").isNull = true →
        obsEntry o = none)
    ∧ wbNormalize c1Payload = .ok [("2020", .num 51 1), ("2022", .num 30 1)] := by
  have h' : ∀ item ∈ obs, item.isNull = false ∧ item.isUndefined = false := by
    intro i hi
    have hx := List.all_eq_true.mp h i hi
    constructor
    · cases hn : i.isNull
      · rfl
      · rw [hn] at hx; simp at hx
    · cases hn : i.isUndefined
      · rfl
      · rw [hn] at hx; simp at hx
  refine ⟨?_, fun q => wbTransform_lookup obs q, ?_, by rfl⟩
  · rw [wbNormalize_cons]
    unfold wbForEach wbTransform
    exact foldlM_obsStepE_eq obs h' []
  · intro o ho
    unfold obsEntry
    rcases ho with hd | hv
    · simp [hd]
    · by_cases hd2 : (o.propD "date").truthy <;> simp [hd2, hv]

theorem c1_wb_normalization_witness :
    ((c1Obs.all fun o => !o.isNull && !o.isUndefined) = true)
    ∧ wbNormalize c1Payload = .ok [("2020", JVal.num 51 1), ("2022", JVal.num 30 1)]
    ∧ lookupKV (wbTransform c1Obs) "2020" = some (JVal.num 51 1)
    ∧ lookupKV (wbTransform c1Obs) "2021" = none :=
  ⟨by rfl,
   (c1_wb_normalization (JVal.obj [("page", JVal.num 1 0)]) c1Obs [] (by rfl)).2.2.2,
   ((c1_wb_normalization (JVal.obj [("page", JVal.num 1 0)]) c1Obs [] (by rfl)).2.1 "2020").trans
     (by rfl),
   ((c1_wb_normalization (JVal.obj [("page", JVal.num 1 0)]) c1Obs [] (by rfl)).2.1 "2021").trans
     (by rfl)⟩

/-- C2: On a World Bank upstream 200 response whose body decodes to a
non-array or to an array of length < 2, the handler resolves the
parse-failure 500 (the `'Invalid World Bank API response format'` path);
the body carries `error` and `message` fields and the status is 500, never
200. -/
theorem c2_wb_malformed_payload (ev : Event) (i c s e sm data : String) (j : JVal)
    (hm : ev.httpMethod = "GET") (hp : requiredParams ev = some (i, c, s, e))
    (hbad : j.isArray = false ∨ j.items.length < 2) :
    wbHandler ev (.got 200 sm data (.ok j)) =
      ⟨wbParse500 "Invalid World Bank API response format" data,
        some (wbOptions (wbApiUrl i c s e)), false⟩
    ∧ wbParse500 "Invalid World Bank API response format" data =
        ⟨500, corsHeaders, jsonStringify (.obj
          [("error", .str "Failed to parse World Bank API response"),
           ("message", .str "Invalid World Bank API response format"),
           ("rawData", .str (data.take 500))])⟩
    ∧ (wbParse500 "Invalid World Bank API response format" data).statusCode = 500 := by
  have hn : wbNormalize j = .error "Invalid World Bank API response format" := by
    unfold wbNormalize
    rw [if_pos hbad]
  refine ⟨?_, rfl, rfl⟩
  rw [wbHandler_valid ev i c s e _ hm hp, wbRespond_got_ok, hn]

theorem c2_wb_malformed_payload_witness :
    requiredParams evValid = some ("NGDP_RPCH", "KR", "2000", "2020")
    ∧ wbHandler evValid (.got 200 "OK" "not an array" (.ok (JVal.obj []))) =
      ⟨wbParse500 "Invalid World Bank API response format" "not an array",
        some (wbOptions (wbApiUrl "NGDP_RPCH" "KR" "2000" "2020")), false⟩ :=
  ⟨by rfl,
   (c2_wb_malformed_payload evValid "NGDP_RPCH" "KR" "2000" "2020" "OK" "not an array"
     (JVal.obj []) (by rfl) (by rfl) (Or.inl (by rfl))).1⟩

/-- C3: On a GET with any of the four query parameters missing or empty,
both handlers return 400 with exactly the fixed missing-parameters JSON
body, independent of the upstream oracle, and issue no outbound request. -/
theorem c3_missing_params (ev : Event)
    (hm : ev.httpMethod = "GET") (hp : requiredParams ev = none) :
    (∀ netW : WBOutcome,
      wbHandler ev netW = ⟨⟨400, corsHeaders, missingParamsBody⟩, none, false⟩)
    ∧ (∀ netI : FetchOutcome,
      imfHandler ev netI = ⟨⟨400, corsHeaders, missingParamsBody⟩, none⟩)
    ∧ missingParamsBody =
        "\x7b\"error\":\"Missing required parameters: indicator, country, startYear, endYear\"\x7d" :=
  ⟨fun netW => wbHandler_400 ev netW hm hp,
   fun netI => imfHandler_400 ev netI hm hp, by rfl⟩

theorem c3_missing_params_witness :
    requiredParams evMissing = none
    ∧ wbHandler evMissing .timeout = ⟨⟨400, corsHeaders, missingParamsBody⟩, none, false⟩
    ∧ imfHandler evMissing (.networkError "refused") =
        ⟨⟨400, corsHeaders, missingParamsBody⟩, none⟩ :=
  ⟨by rfl,
   (c3_missing_params evMissing (by rfl) (by rfl)).1 .timeout,
   (c3_missing_params evMissing (by rfl) (by rfl)).2.1 (.networkError "refused")⟩

/-- C4: Code translation in the World Bank handler is fail-open:
`KR ↦ KOR`; a code absent from the indicator or country table passes
through unchanged (in particular `ZZ ↦ ZZ`); and the outbound URL — the one
recorded in the issued request options — interpolates exactly the
translated codes. -/
theorem c4_code_translation :
    jsOr (countryMap.lookup "KR") "KR" = "KOR"
    ∧ (∀ code, countryMap.lookup code = none → jsOr (countryMap.lookup code) code = code)
    ∧ (∀ code, indicatorMap.lookup code = none → jsOr (indicatorMap.lookup code) code = code)
    ∧ jsOr (countryMap.lookup "ZZ") "ZZ" = "ZZ"
    ∧ jsOr (indicatorMap.lookup "ZZ") "ZZ" = "ZZ"
    ∧ (∀ i c s e, wbApiUrl i c s e =
        "https://api.worldbank.org/v2/country/" ++ jsOr (countryMap.lookup c) c ++
        "/indicator/" ++ jsOr (indicatorMap.lookup i) i ++
        "?format=json&date=" ++ s ++ ":" ++ e)
    ∧ (∀ (ev : Event) i c s e (net : WBOutcome), ev.httpMethod = "GET" →
        requiredParams ev = some (i, c, s, e) →
        (wbHandler ev net).request = some (wbOptions (wbApiUrl i c s e))) := by
  refine ⟨by rfl, ?_, ?_, by rfl, by rfl, fun i c s e => rfl, ?_⟩
  · intro code hc; simp [jsOr, hc]
  · intro code hc; simp [jsOr, hc]
  · intro ev i c s e net hm hp
    rw [wbHandler_valid ev i c s e net hm hp]
    exact wbRespond_request i c s e net

theorem c4_code_translation_witness :
    countryMap.lookup "ZZ" = none
    ∧ jsOr (countryMap.lookup "ZZ") "ZZ" = "ZZ"
    ∧ (wbHandler evValid .timeout).request =
        some (wbOptions (wbApiUrl "NGDP_RPCH" "KR" "2000" "2020")) :=
  ⟨by rfl,
   c4_code_translation.2.1 "ZZ" (by rfl),
   c4_code_translation.2.2.2.2.2.2 evValid "NGDP_RPCH" "KR" "2000" "2020" .timeout
     (by rfl) (by rfl)⟩

/-- C5: On an IMF upstream response with a non-OK status, the handler
resolves a 500 whose body has `error` and `message` fields, the message
embedding the upstream status and at most 200 characters of the upstream
body. -/
theorem c5_imf_non_ok (ev : Event) (i c s e : String) (status : Nat)
    (statusText bodyText : String) (json : Except String JVal)
    (hm : ev.httpMethod = "GET") (hp : requiredParams ev = some (i, c, s, e))
    (hok : respOk status = false) :
    imfHandler ev (.response status statusText bodyText json) =
      ⟨⟨500, corsHeaders, jsonStringify (.obj
        [("error", .str "Failed to fetch data from IMF API"),
         ("message", .str ("IMF API error: " ++ toString status ++ " " ++ statusText ++
           ". " ++ bodyText.take 200))])⟩,
       some (imfApiUrl i c s e)⟩
    ∧ (bodyText.take 200).length ≤ 200 := by
  refine ⟨?_, string_take_length_le bodyText 200⟩
  rw [imfHandler_valid ev i c s e _ hm hp, imfRespond_response, if_pos hok]
  rfl

theorem c5_imf_non_ok_witness :
    respOk 404 = false
    ∧ imfHandler evValid (.response 404 "Not Found" "missing" (.error "x")) =
      ⟨⟨500, corsHeaders, jsonStringify (.obj
        [("error", .str "Failed to fetch data from IMF API"),
         ("message", .str ("IMF API error: " ++ toString 404 ++ " " ++ "Not Found" ++
           ". " ++ String.take "missing" 200))])⟩,
       some (imfApiUrl "NGDP_RPCH" "KR" "2000" "2020")⟩ :=
  ⟨by rfl,
   (c5_imf_non_ok evValid "NGDP_RPCH" "KR" "2000" "2020" 404 "Not Found" "missing"
     (.error "x") (by rfl) (by rfl) (by rfl)).1⟩

/-- C6: The World Bank handler's outbound request options carry a fixed
30000 ms timeout on every upstream path; when the timeout event fires the
request is destroyed and the handler resolves exactly the 500 envelope
whose message states the 30-second bound. -/
theorem c6_wb_timeout (ev : Event) (i c s e : String)
    (hm : ev.httpMethod = "GET") (hp : requiredParams ev = some (i, c, s, e)) :
    wbHandler ev .timeout =
      ⟨⟨500, corsHeaders, jsonStringify (.obj
        [("error", .str "World Bank API request timeout"),
         ("message", .str "Request took longer than 30 seconds")])⟩,
       some (wbOptions (wbApiUrl i c s e)), true⟩
    ∧ (∀ net, (wbHandler ev net).request = some (wbOptions (wbApiUrl i c s e)))
    ∧ (∀ url, (wbOptions url).timeout = 30000) := by
  refine ⟨?_, ?_, fun url => rfl⟩
  · rw [wbHandler_valid ev i c s e _ hm hp]
    rfl
  · intro net
    rw [wbHandler_valid ev i c s e net hm hp]
    exact wbRespond_request i c s e net

theorem c6_wb_timeout_witness :
    requiredParams evValid = some ("NGDP_RPCH", "KR", "2000", "2020")
    ∧ wbHandler evValid .timeout =
      ⟨⟨500, corsHeaders, jsonStringify (.obj
        [("error", .str "World Bank API request timeout"),
         ("message", .str "Request took longer than 30 seconds")])⟩,
       some (wbOptions (wbApiUrl "NGDP_RPCH" "KR" "2000" "2020")), true⟩
    ∧ (wbOptions (wbApiUrl "NGDP_RPCH" "KR" "2000" "2020")).timeout = 30000 :=
  ⟨by rfl,
   (c6_wb_timeout evValid "NGDP_RPCH" "KR" "2000" "2020" (by rfl) (by rfl)).1,
   (c6_wb_timeout evValid "NGDP_RPCH" "KR" "2000" "2020" (by rfl) (by rfl)).2.2
     (wbApiUrl "NGDP_RPCH" "KR" "2000" "2020")⟩

/-- C7: An OPTIONS request makes both handlers return 200 with an empty
body, for every query-parameter set and upstream oracle: no validation, no
outbound call. -/
theorem c7_options_preflight (ev : Event) (netW : WBOutcome) (netI : FetchOutcome)
    (hm : ev.httpMethod = "OPTIONS") :
    wbHandler ev netW = ⟨⟨200, corsHeaders, ""⟩, none, false⟩
    ∧ imfHandler ev netI = ⟨⟨200, corsHeaders, ""⟩, none⟩ :=
  ⟨wbHandler_options_aux ev netW hm, imfHandler_options_aux ev netI hm⟩

theorem c7_options_preflight_witness :
    evOptions.httpMethod = "OPTIONS"
    ∧ wbHandler evOptions .timeout = ⟨⟨200, corsHeaders, ""⟩, none, false⟩
    ∧ imfHandler evOptions (.networkError "refused") = ⟨⟨200, corsHeaders, ""⟩, none⟩ :=
  ⟨by rfl,
   (c7_options_preflight evOptions .timeout (.networkError "refused") (by rfl)).1,
   (c7_options_preflight evOptions .timeout (.networkError "refused") (by rfl)).2⟩

/-- C8: A request whose method is neither GET nor OPTIONS makes both
handlers return 405 with exactly the `Method not allowed` JSON body and no
outbound call, for every upstream oracle. -/
theorem c8_method_not_allowed (ev : Event) (netW : WBOutcome) (netI : FetchOutcome)
    (ho : ev.httpMethod ≠ "OPTIONS") (hg : ev.httpMethod ≠ "GET") :
    wbHandler ev netW = ⟨⟨405, corsHeaders, methodNotAllowedBody⟩, none, false⟩
    ∧ imfHandler ev netI = ⟨⟨405, corsHeaders, methodNotAllowedBody⟩, none⟩
    ∧ methodNotAllowedBody = "\x7b\"error\":\"Method not allowed\"\x7d" :=
  ⟨wbHandler_405_aux ev netW ho hg, imfHandler_405_aux ev netI ho hg, by rfl⟩

theorem c8_method_not_allowed_witness :
    evPost.httpMethod = "POST"
    ∧ wbHandler evPost .timeout = ⟨⟨405, corsHeaders, methodNotAllowedBody⟩, none, false⟩
    ∧ imfHandler evPost (.networkError "refused") =
        ⟨⟨405, corsHeaders, methodNotAllowedBody⟩, none⟩ :=
  ⟨by rfl,
   (c8_method_not_allowed evPost .timeout (.networkError "refused")
     (by simp [evPost]) (by simp [evPost])).1,
   (c8_method_not_allowed evPost .timeout (.networkError "refused")
     (by simp [evPost]) (by simp [evPost])).2.1⟩

/-- C9: Every response envelope either handler produces — preflight, 405,
400, every 500 branch, and 200 success — carries exactly the four CORS and
content-type headers. -/
theorem c9_headers_always (ev : Event) (netW : WBOutcome) (netI : FetchOutcome) :
    (wbHandler ev netW).response.headers =
      [("Access-Control-Allow-Origin", "*"),
       ("Access-Control-Allow-Headers", "Content-Type"),
       ("Access-Control-Allow-Methods", "GET, OPTIONS"),
       ("Content-Type", "application/json")]
    ∧ (imfHandler ev netI).response.headers =
      [("Access-Control-Allow-Origin", "*"),
       ("Access-Control-Allow-Headers", "Content-Type"),
       ("Access-Control-Allow-Methods", "GET, OPTIONS"),
       ("Content-Type", "application/json")] :=
  ⟨(wbHandler_headers_aux ev netW).trans rfl, (imfHandler_headers_aux ev netI).trans rfl⟩

/-- C10: A GET event with no `queryStringParameters` object at all is
handled like an empty parameter set: both handlers return the 400
missing-parameters response (no dereference of the absent object, no
outbound call), for every upstream oracle. -/
theorem c10_no_query_object (ev : Event) (netW : WBOutcome) (netI : FetchOutcome)
    (hm : ev.httpMethod = "GET") (hq : ev.queryStringParameters = none) :
    wbHandler ev netW = ⟨⟨400, corsHeaders, missingParamsBody⟩, none, false⟩
    ∧ imfHandler ev netI = ⟨⟨400, corsHeaders, missingParamsBody⟩, none⟩ :=
  ⟨wbHandler_400 ev netW hm (requiredParams_noQsp ev hq),
   imfHandler_400 ev netI hm (requiredParams_noQsp ev hq)⟩

theorem c10_no_query_object_witness :
    evNoQsp.queryStringParameters = none
    ∧ wbHandler evNoQsp .timeout = ⟨⟨400, corsHeaders, missingParamsBody⟩, none, false⟩
    ∧ imfHandler evNoQsp (.networkError "refused") =
        ⟨⟨400, corsHeaders, missingParamsBody⟩, none⟩ :=
  ⟨by rfl,
   (c10_no_query_object evNoQsp .timeout (.networkError "refused") (by rfl) (by rfl)).1,
   (c10_no_query_object evNoQsp .timeout (.networkError "refused") (by rfl) (by rfl)).2⟩
